import Mathlib

/-!
Verification of the simulation-and-event loop of the softbody repository
(`src/main.cpp`): the ODE model (`eqdiff`, `jacobian`), the GSL driver
configuration, the animation loop of `main`, the startup shader check, and the
GLFW input callbacks.  C `double`s are modelled as rationals where only field
arithmetic occurs and as real numbers where a Euclidean norm is taken; C output
arrays are modelled as functions out of `Fin n` built by successive stores.
-/

namespace Softbody

/-- GSL status code for success (`GSL_SUCCESS` in `gsl_errno.h`). -/
def GSL_SUCCESS : Int := 0

/-- GSL status code for a generic failure (`GSL_FAILURE` in `gsl_errno.h`). -/
def GSL_FAILURE : Int := -1

/-- The `parameters` struct of `main.cpp` (lines 27 to 33): damping `c`,
stiffness `k`, mass `M` and constant forcing `F`. -/
structure parameters where
  c : ℚ
  k : ℚ
  M : ℚ
  F : ℚ

/-- The GSL derivative callback `eqdiff` of `main.cpp` (lines 211 to 226).  It
reads the four parameters, stores `f[0] = y[1]` and
`f[1] = (F - c*y[1] - k*y[0]) / M` into the output array and returns
`GSL_SUCCESS`.  The output array is modelled as a function `Fin 2 → ℚ` built by
the two successive stores. -/
def eqdiff (t : ℚ) (y : Fin 2 → ℚ) (params : parameters) : Int × (Fin 2 → ℚ) :=
  let _ := t
  let c := params.c
  let k := params.k
  let M := params.M
  let F := params.F
  let f : Fin 2 → ℚ := fun _ => 0
  let f := Function.update f 0 (y 1)
  let f := Function.update f 1 ((F - c * y 1 - k * y 0) / M)
  (GSL_SUCCESS, f)

/-- A `gsl_matrix_view_array(dfdy, 2, 2)` presents the flat output array as a
row-major 2 by 2 matrix: `gsl_matrix_set m i j v` stores `v` at flat index
`2*i + j`. -/
def gsl_matrix_set (m : Fin 4 → ℚ) (i j : Fin 2) (v : ℚ) : Fin 4 → ℚ :=
  Function.update m ⟨2 * i.val + j.val, by omega⟩ v

/-- The GSL Jacobian callback `jacobian` of `main.cpp` (lines 228 to 251).  It
stores the 2 by 2 matrix `[[0, 1], [-k/M, -c/M]]` into `dfdy` (row-major
through a matrix view), stores `[0, 0]` into `dfdt`, and returns
`GSL_SUCCESS`. -/
def jacobian (t : ℚ) (y : Fin 2 → ℚ) (params : parameters) :
    Int × (Fin 4 → ℚ) × (Fin 2 → ℚ) :=
  let _ := t
  let _ := y
  let c := params.c
  let k := params.k
  let M := params.M
  let m : Fin 4 → ℚ := fun _ => 0
  let m := gsl_matrix_set m 0 0 0.0
  let m := gsl_matrix_set m 0 1 1.0
  let m := gsl_matrix_set m 1 0 (-k / M)
  let m := gsl_matrix_set m 1 1 (-c / M)
  let dfdt : Fin 2 → ℚ := fun _ => 0
  let dfdt := Function.update dfdt 0 0.0
  let dfdt := Function.update dfdt 1 0.0
  (GSL_SUCCESS, m, dfdt)

/-- The GSL stepping methods of the `gsl_odeiv2` module. -/
inductive gsl_odeiv2_step_type where
  | rk2 | rk4 | rkf45 | rkck | rk8pd | rk1imp | rk2imp | rk4imp | bsimp | msadams | msbdf
deriving DecidableEq

/-- Whether a GSL stepping method performs implicit time-stepping (per the GSL
odeiv2 documentation, `rk1imp`, `rk2imp`, `rk4imp`, `bsimp` and `msbdf` are the
implicit, stiff-capable steppers; they are the ones that use the Jacobian). -/
def supports_implicit_stepping : gsl_odeiv2_step_type → Bool
  | .rk1imp | .rk2imp | .rk4imp | .bsimp | .msbdf => true
  | _ => false

/-- The configuration handed to `gsl_odeiv2_driver_alloc_y_new`: stepping
method, initial step size `hstart`, absolute tolerance `epsabs` and relative
tolerance `epsrel`, in the order of the GSL signature. -/
structure IntegratorConfig where
  method : gsl_odeiv2_step_type
  hstart : ℚ
  epsabs : ℚ
  epsrel : ℚ
deriving DecidableEq

/-- The driver allocation of `main.cpp` line 68:
`gsl_odeiv2_driver_alloc_y_new(&sys, gsl_odeiv2_step_rk1imp, 1e-6, 1e-6, 0.0)`.
The GSL signature is `(sys, T, hstart, epsabs, epsrel)`, so the positional
arguments are the initial step `1e-6`, the absolute tolerance `1e-6` and the
relative tolerance `0.0`. -/
def driver_config : IntegratorConfig :=
  { method := .rk1imp
    hstart := 1 / 1000000
    epsabs := 1 / 1000000
    epsrel := 0 }

/-- The animation loop of `main` (`main.cpp` lines 80 to 129) followed by the
final `return 0` (line 138), projected onto its control flow.  Per iteration
the loop checks `glfwWindowShouldClose` (modelled by the oracle `shouldClose`,
indexed by the number of completed iterations), and if the window is not
closing it calls `gsl_odeiv2_driver_apply` (line 105) whose returned status
(modelled by the oracle `status`) is discarded by the caller, then increments
`ti`.  The result is `some (iterations, exit code)` when the run terminates
within the given fuel and `none` otherwise. -/
def animation_loop (shouldClose : ℕ → Bool) (status : ℕ → Int) :
    ℕ → ℕ → Option (ℕ × Int)
  | 0, _ => none
  | fuel + 1, k =>
      if shouldClose k then some (k, 0)
      else
        let _integration_status := status k
        animation_loop shouldClose status fuel (k + 1)

/-- The diagnostic lines printed by `display_error_file_access` (`main.cpp`
lines 163 to 169). -/
def display_error_file_access : List String :=
  ["[ERROR File Access] The default initialization from helper_common_scene tried to load the shader file shaders/mesh/vert.glsl but cannot not find it",
   "  => In most situation, the problem is the following: Your executable is not run from the root directory of this scene, and the directory shaders/ is therefore not accessible. ",
   "  => To solve this problem, you may need to adjust your IDE settings (or your placement in command line) such that your executable is run from the parent directory of shaders/. Then run again the program. ",
   "\n\nThe program will now exit"]

/-- The GPU-side actions performed by `initialize_default_shaders` on its
success path (`main.cpp` lines 152 to 159). -/
inductive ShaderAction where
  | load_mesh_shader
  | load_default_white_texture
  | load_single_color_shader
deriving DecidableEq

/-- Outcome of the startup phase: either the process exits with a code after
printing some diagnostic lines, or startup proceeds after performing the given
resource loads. -/
inductive StartupOutcome where
  | exitProcess (code : Int) (printed : List String)
  | proceed (loads : List ShaderAction)

/-- The function `initialize_default_shaders` of `main.cpp` (lines 142 to 160):
if `check_file_exist("../shaders/mesh/vert.glsl")` is false (the file-system
probe is modelled by the boolean `vert_glsl_exists`), it prints the diagnostic
of `display_error_file_access` and calls `exit(1)`; otherwise it loads the mesh
shader, the default white texture and the single-color shader. -/
def initialize_default_shaders (vert_glsl_exists : Bool) : StartupOutcome :=
  if vert_glsl_exists = false then
    StartupOutcome.exitProcess 1 display_error_file_access
  else
    StartupOutcome.proceed
      [ShaderAction.load_mesh_shader, ShaderAction.load_default_white_texture,
       ShaderAction.load_single_color_shader]

/-- The startup-then-loop skeleton of `main`: `initialize_default_shaders` runs
before the animation loop (line 54 precedes line 80), so when it exits the
process, zero loop iterations run and its exit code is the process exit code;
otherwise the run is the animation loop followed by `return 0`.  The result
pairs the loop outcome with the diagnostic lines printed on the error path. -/
def main_run (vert_glsl_exists : Bool) (shouldClose : ℕ → Bool) (status : ℕ → Int)
    (fuel : ℕ) : Option (ℕ × Int) × List String :=
  match initialize_default_shaders vert_glsl_exists with
  | StartupOutcome.exitProcess code printed => (some (0, code), printed)
  | StartupOutcome.proceed _ => (animation_loop shouldClose status fuel 0, [])

/-- The 3-component vector type `cgp::vec3`, over real numbers. -/
structure vec3 where
  x : ℝ
  y : ℝ
  z : ℝ

/-- Componentwise subtraction of `cgp::vec3`. -/
noncomputable def vec3.sub (u v : vec3) : vec3 :=
  ⟨u.x - v.x, u.y - v.y, u.z - v.z⟩

/-- Componentwise addition of `cgp::vec3` (operator `+=`). -/
noncomputable def vec3.add (u v : vec3) : vec3 :=
  ⟨u.x + v.x, u.y + v.y, u.z + v.z⟩

/-- Multiplication of a `cgp::vec3` by a scalar on the right. -/
noncomputable def vec3.smul (u : vec3) (r : ℝ) : vec3 :=
  ⟨u.x * r, u.y * r, u.z * r⟩

/-- Division of a `cgp::vec3` by a scalar (operator `/=`). -/
noncomputable def vec3.divScalar (u : vec3) (r : ℝ) : vec3 :=
  ⟨u.x / r, u.y / r, u.z / r⟩

/-- The Euclidean norm `cgp::norm` of a `vec3`. -/
noncomputable def vec3.norm (u : vec3) : ℝ :=
  Real.sqrt (u.x * u.x + u.y * u.y + u.z * u.z)

/-- The displacement computed by the animation loop (`main.cpp` lines 106 to
109) from the state `y` returned by the driver: `p2dir = vec3(0,0,y[0]) -
vec3(0,0,3)`, then `p2dir /= norm(p2dir)`, and the vector added to the tracked
translation is `p2dir * y[1]`. -/
noncomputable def p2_displacement (y : Fin 2 → ℝ) : vec3 :=
  let p2dir := vec3.sub ⟨0, 0, y 0⟩ ⟨0, 0, 3⟩
  let p2dir := vec3.divScalar p2dir (vec3.norm p2dir)
  vec3.smul p2dir (y 1)

/-- The displacement as the specification words it (for comparison with
`p2_displacement`): the unit vector from the fixed anchor `(0,0,3)` toward the
current position `translation` of the tracked object, scaled by the velocity
component `y[1]`. -/
noncomputable def spec_displacement (translation : vec3) (y : Fin 2 → ℝ) : vec3 :=
  let dir := vec3.sub translation ⟨0, 0, 3⟩
  let dir := vec3.divScalar dir (vec3.norm dir)
  vec3.smul dir (y 1)

/-- The translation of the tracked object `scene.p2` across loop iterations:
`scene.p2.model.translation += vec3(p2dir * y[1])` (`main.cpp` line 109), with
`ys i` the driver state observed at iteration `i`. -/
noncomputable def p2_translation (t0 : vec3) (ys : ℕ → Fin 2 → ℝ) : ℕ → vec3
  | 0 => t0
  | n + 1 => vec3.add (p2_translation t0 ys n) (p2_displacement (ys n))

/-- GLFW action code `GLFW_RELEASE`. -/
def GLFW_RELEASE : Int := 0

/-- GLFW action code `GLFW_PRESS`. -/
def GLFW_PRESS : Int := 1

/-- GLFW key code `GLFW_KEY_F`. -/
def GLFW_KEY_F : Int := 70

/-- GLFW key code `GLFW_KEY_V`. -/
def GLFW_KEY_V : Int := 86

/-- GLFW key code `GLFW_KEY_LEFT_SHIFT`. -/
def GLFW_KEY_LEFT_SHIFT : Int := 340

/-- GLFW key code `GLFW_KEY_RIGHT_SHIFT`. -/
def GLFW_KEY_RIGHT_SHIFT : Int := 344

/-- GLFW key code `GLFW_KEY_LEFT_CONTROL`. -/
def GLFW_KEY_LEFT_CONTROL : Int := 341

/-- GLFW key code `GLFW_KEY_RIGHT_CONTROL`. -/
def GLFW_KEY_RIGHT_CONTROL : Int := 345

/-- GLFW button code `GLFW_MOUSE_BUTTON_LEFT`. -/
def GLFW_MOUSE_BUTTON_LEFT : Int := 0

/-- GLFW button code `GLFW_MOUSE_BUTTON_RIGHT`. -/
def GLFW_MOUSE_BUTTON_RIGHT : Int := 1

/-- The current/previous mouse position pair kept in the shared input state. -/
structure mouse_position_state where
  current : ℝ × ℝ
  previous : ℝ × ℝ

/-- Modelled from the spec: the CGP helper `position.update` (external CGP
library, outside `src/`) records a newly delivered mouse position, keeping the
previously current one, per the spec data model where the dispatcher mutates
`mouse_position` upon each delivered event. -/
def mouse_position_update (p : ℝ × ℝ) (m : mouse_position_state) :
    mouse_position_state :=
  { current := p, previous := m.current }

/-- The pressed/released state of the mouse buttons. -/
structure mouse_click_state where
  left : Bool
  right : Bool

/-- Modelled from the spec: the CGP helper `update_from_glfw_click` (external
CGP library, outside `src/`) sets the binary pressed/released state of the
button named by the delivered event; unknown button codes are ignored. -/
def update_from_glfw_click (button action : Int) (c : mouse_click_state) :
    mouse_click_state :=
  if button = GLFW_MOUSE_BUTTON_LEFT then { c with left := decide (action = GLFW_PRESS) }
  else if button = GLFW_MOUSE_BUTTON_RIGHT then { c with right := decide (action = GLFW_PRESS) }
  else c

/-- The keyboard portion of the shared input state: the modifier flags and the
binary pressed/released state of each key. -/
structure keyboard_state where
  shift : Bool
  ctrl : Bool
  pressed : Int → Bool

/-- Modelled from the spec: the CGP helper `update_from_glfw_key` (external CGP
library, outside `src/`) records the binary pressed/released state of the key
named by the delivered event; the `shift` and `ctrl` modifier flags follow the
corresponding modifier keys and are untouched by events on any other key. -/
def update_from_glfw_key (key action : Int) (kb : keyboard_state) : keyboard_state :=
  let pressed_now := decide (action = GLFW_PRESS)
  { shift := if key = GLFW_KEY_LEFT_SHIFT ∨ key = GLFW_KEY_RIGHT_SHIFT then pressed_now else kb.shift
    ctrl := if key = GLFW_KEY_LEFT_CONTROL ∨ key = GLFW_KEY_RIGHT_CONTROL then pressed_now else kb.ctrl
    pressed := Function.update kb.pressed key pressed_now }

/-- The shared input state `scene.inputs` mutated by the callbacks. -/
structure InputState where
  mouse_position : mouse_position_state
  mouse_click : mouse_click_state
  keyboard : keyboard_state

/-- The window fields touched by the callbacks. -/
structure window_state where
  is_full_screen : Bool

/-- The part of the global `scene` object visible to the callbacks. -/
structure SceneState where
  inputs : InputState
  window : window_state

/-- Observable events emitted by a callback, in order: the shared input state
was mutated (recording the post-mutation input state), and the scene-level
handler was invoked (recording the input state it observes). -/
inductive CallbackEvent where
  | input_state_mutated (post : InputState)
  | scene_handler_invoked (observed : InputState)

/-- The input-state mutation performed by `mouse_move_callback` before it
invokes the scene handler. -/
def mouse_move_input_update (pos_relative : ℝ × ℝ) (inp : InputState) : InputState :=
  { inp with mouse_position := mouse_position_update pos_relative inp.mouse_position }

/-- The input-state mutation performed by `mouse_click_callback` before it
invokes the scene handler. -/
def mouse_click_input_update (button action : Int) (inp : InputState) : InputState :=
  { inp with mouse_click := update_from_glfw_click button action inp.mouse_click }

/-- The input-state mutation performed by `keyboard_callback` before it invokes
the scene handler. -/
def keyboard_input_update (key action : Int) (inp : InputState) : InputState :=
  { inp with keyboard := update_from_glfw_key key action inp.keyboard }

/-- The function `mouse_move_callback` of `main.cpp` (lines 261 to 266): it
converts the pixel position to relative coordinates (CGP helper, modelled by
the parameter `to_relative`), updates `scene.inputs.mouse.position`, then calls
`scene.mouse_move_event()` (the scene-level handler, defined in the scene code
outside `src/`, modelled by the parameter `mouse_move_event`).  The event trace
records the mutation and the handler invocation in program order. -/
def mouse_move_callback (to_relative : ℝ × ℝ → ℝ × ℝ)
    (mouse_move_event : SceneState → SceneState) (xpos ypos : ℝ) (s : SceneState) :
    SceneState × List CallbackEvent :=
  let pos_relative := to_relative (xpos, ypos)
  let s1 : SceneState :=
    { s with inputs.mouse_position := mouse_position_update pos_relative s.inputs.mouse_position }
  let s2 := mouse_move_event s1
  (s2, [CallbackEvent.input_state_mutated s1.inputs,
        CallbackEvent.scene_handler_invoked s1.inputs])

/-- The function `mouse_click_callback` of `main.cpp` (lines 269 to 274): it
updates `scene.inputs.mouse.click` from the delivered button and action, then
calls `scene.mouse_click_event()` (modelled by `mouse_click_event`). -/
def mouse_click_callback (mouse_click_event : SceneState → SceneState)
    (button action : Int) (s : SceneState) : SceneState × List CallbackEvent :=
  let s1 : SceneState :=
    { s with inputs.mouse_click := update_from_glfw_click button action s.inputs.mouse_click }
  let s2 := mouse_click_event s1
  (s2, [CallbackEvent.input_state_mutated s1.inputs,
        CallbackEvent.scene_handler_invoked s1.inputs])

/-- The function `keyboard_callback` of `main.cpp` (lines 277 to 303): it
updates `scene.inputs.keyboard` from the delivered key and action, calls
`scene.keyboard_event()` (modelled by `keyboard_event`), then, when the key is
`F`, the action is a press and the shift flag of the (possibly
handler-modified) keyboard state is set, toggles `scene.window.is_full_screen`
(lines 283 to 289).  The `V` branch (lines 291 to 299) only prints camera
diagnostics and mutates nothing, so it does not appear in the state. -/
def keyboard_callback (keyboard_event : SceneState → SceneState)
    (key action : Int) (s : SceneState) : SceneState × List CallbackEvent :=
  let s1 : SceneState :=
    { s with inputs.keyboard := update_from_glfw_key key action s.inputs.keyboard }
  let s2 := keyboard_event s1
  let s3 :=
    if key = GLFW_KEY_F ∧ action = GLFW_PRESS ∧ s2.inputs.keyboard.shift then
      { s2 with window.is_full_screen := !s2.window.is_full_screen }
    else s2
  (s3, [CallbackEvent.input_state_mutated s1.inputs,
        CallbackEvent.scene_handler_invoked s1.inputs])

/-- A concrete scene state with the shift modifier held, used to instantiate
universally quantified statements. -/
def sample_scene : SceneState :=
  { inputs :=
      { mouse_position := { current := (0, 0), previous := (0, 0) }
        mouse_click := { left := false, right := false }
        keyboard := { shift := true, ctrl := false, pressed := fun _ => false } }
    window := { is_full_screen := false } }

/-! Helper lemmas shared by the claim theorems. -/

theorem eqdiff_val0 (t : ℚ) (y : Fin 2 → ℚ) (p : parameters) :
    (eqdiff t y p).2 0 = y 1 := by
  simp [eqdiff, Function.update]

theorem eqdiff_val1 (t : ℚ) (y : Fin 2 → ℚ) (p : parameters) :
    (eqdiff t y p).2 1 = (p.F - p.c * y 1 - p.k * y 0) / p.M := by
  simp [eqdiff, Function.update]

theorem jacobian_dfdy (t : ℚ) (y : Fin 2 → ℚ) (p : parameters) :
    (jacobian t y p).2.1 = ![0, 1, -p.k / p.M, -p.c / p.M] := by
  funext i
  fin_cases i <;> simp [jacobian, gsl_matrix_set, Function.update] <;> norm_num

theorem jacobian_dfdt (t : ℚ) (y : Fin 2 → ℚ) (p : parameters) :
    (jacobian t y p).2.2 = ![0, 0] := by
  funext i
  fin_cases i <;> simp [jacobian, Function.update] <;> norm_num

/-- C1: for every input `(t, y, parameters)` with damping `c`, stiffness `k`,
mass `M` and forcing `F`, the derivative callback `eqdiff` returns the vector
`f` with `f[0] = y[1]` and `f[1] = (F - c*y[1] - k*y[0]) / M`, together with
the success status; being a pure Lean function of its arguments, it has no
side effects and is deterministic for identical inputs. -/
theorem eqdiff_computes_oscillator_derivative (t : ℚ) (y : Fin 2 → ℚ) (p : parameters) :
    (eqdiff t y p).2 0 = y 1 ∧
    (eqdiff t y p).2 1 = (p.F - p.c * y 1 - p.k * y 0) / p.M ∧
    (eqdiff t y p).1 = GSL_SUCCESS :=
  ⟨eqdiff_val0 t y p, eqdiff_val1 t y p, rfl⟩

/-- C10: the derivative callback and the Jacobian callback return `GSL_SUCCESS`
for every input; neither has any other return path, so the solver is never
aborted by a failure signalled from the ODE model itself. -/
theorem ode_callbacks_always_succeed (t u : ℚ) (y z : Fin 2 → ℚ) (p q : parameters) :
    (eqdiff t y p).1 = GSL_SUCCESS ∧ (jacobian u z q).1 = GSL_SUCCESS :=
  ⟨rfl, rfl⟩

/-- C2: for every `(t, y)` and all parameters with positive mass, `jacobian`
writes the matrix `[[0, 1], [-k/M, -c/M]]` into `dfdy` (row-major) and the zero
vector into `dfdt`, and these values are exactly the analytic partial
derivatives of the components of `eqdiff` with respect to the state components
and with respect to time, independently of `t` and `y`. -/
theorem jacobian_is_analytic_derivative (t a b : ℚ) (p : parameters) (hM : 0 < p.M) :
    (jacobian t ![a, b] p).2.1 = ![0, 1, -p.k / p.M, -p.c / p.M] ∧
    (jacobian t ![a, b] p).2.2 = ![0, 0] ∧
    (jacobian t ![a, b] p).2.1 0 = deriv (fun u => (eqdiff t ![u, b] p).2 0) a ∧
    (jacobian t ![a, b] p).2.1 1 = deriv (fun v => (eqdiff t ![a, v] p).2 0) b ∧
    (jacobian t ![a, b] p).2.1 2 = deriv (fun u => (eqdiff t ![u, b] p).2 1) a ∧
    (jacobian t ![a, b] p).2.1 3 = deriv (fun v => (eqdiff t ![a, v] p).2 1) b ∧
    (jacobian t ![a, b] p).2.2 0 = deriv (fun s => (eqdiff s ![a, b] p).2 0) t ∧
    (jacobian t ![a, b] p).2.2 1 = deriv (fun s => (eqdiff s ![a, b] p).2 1) t := by
  have _hM := hM
  have hm := jacobian_dfdy t ![a, b] p
  have hd := jacobian_dfdt t ![a, b] p
  refine ⟨hm, hd, ?_, ?_, ?_, ?_, ?_, ?_⟩
  · rw [hm]
    simp only [eqdiff_val0, Matrix.cons_val_one, Matrix.head_cons, Matrix.cons_val_zero]
    simp
  · rw [hm]
    simp only [eqdiff_val0, Matrix.cons_val_one, Matrix.head_cons]
    simp
  · rw [hm]
    simp only [eqdiff_val1, Matrix.cons_val_one, Matrix.head_cons, Matrix.cons_val_zero]
    have h : HasDerivAt (fun u : ℚ => (p.F - p.c * b - p.k * u) / p.M) (-(p.k * 1) / p.M) a :=
      (((hasDerivAt_id a).const_mul p.k).const_sub (p.F - p.c * b)).div_const p.M
    rw [h.deriv]
    simp
  · rw [hm]
    simp only [eqdiff_val1, Matrix.cons_val_one, Matrix.head_cons, Matrix.cons_val_zero]
    have h : HasDerivAt (fun v : ℚ => (p.F - p.c * v - p.k * a) / p.M) (-(p.c * 1) / p.M) b :=
      ((((hasDerivAt_id b).const_mul p.c).const_sub p.F).sub_const (p.k * a)).div_const p.M
    rw [h.deriv]
    simp
  · rw [hd]
    simp only [eqdiff_val0, Matrix.cons_val_one, Matrix.head_cons, Matrix.cons_val_zero]
    simp
  · rw [hd]
    simp only [eqdiff_val1, Matrix.cons_val_one, Matrix.head_cons, Matrix.cons_val_zero]
    simp

/-- Witness for C2 at `t = 0`, `y = (1, 2)` and the programs own parameter
values `c = 1/5`, `k = 2`, `M = 20`, `F = 5`. -/
theorem jacobian_is_analytic_derivative_witness :
    (0 : ℚ) < 20 ∧
    (jacobian 0 ![1, 2] ⟨1/5, 2, 20, 5⟩).2.1 = ![0, 1, -2 / 20, -(1/5) / 20] := by
  refine ⟨by norm_num, ?_⟩
  exact (jacobian_is_analytic_derivative 0 1 2 ⟨1/5, 2, 20, 5⟩ (by decide)).1

/-- C3 counterexample: with the window-close flag first raised after two
iterations and the driver signalling `GSL_FAILURE` at every call, the loop
still runs both iterations and the process exits with code `0`: the failure
status returned at line 105 is discarded, so an integration failure neither
terminates the loop nor yields a non-zero exit code. -/
theorem integration_failure_not_fatal :
    animation_loop (fun i => decide (i = 2)) (fun _ => GSL_FAILURE) 10 0 = some (2, 0) ∧
    GSL_FAILURE ≠ GSL_SUCCESS :=
  ⟨rfl, by decide⟩

/-- C3 amended: the animation loop discards the status returned by
`gsl_odeiv2_driver_apply`; its behaviour is identical for any two status
oracles, it terminates only when the window-close condition is observed, and
whenever it terminates the process exit code is `0`. -/
theorem animation_loop_ignores_integration_status (shouldClose : ℕ → Bool)
    (status status' : ℕ → Int) (fuel k : ℕ) :
    animation_loop shouldClose status fuel k = animation_loop shouldClose status' fuel k ∧
    ((animation_loop shouldClose status fuel k).map Prod.snd = none ∨
     (animation_loop shouldClose status fuel k).map Prod.snd = some 0) := by
  induction fuel generalizing k with
  | zero => exact ⟨rfl, Or.inl rfl⟩
  | succ n ih =>
    by_cases h : shouldClose k
    · constructor
      · simp [animation_loop, h]
      · right
        simp [animation_loop, h]
    · refine ⟨?_, ?_⟩
      · simp only [animation_loop, h, if_false, Bool.false_eq_true]
        exact (ih (k + 1)).1
      · simpa only [animation_loop, h, if_false, Bool.false_eq_true] using (ih (k + 1)).2

/-- C4 counterexample: the driver of `main.cpp` line 68 is allocated with
relative tolerance `0` (the GSL positional arguments are `hstart`, `epsabs`,
`epsrel`, and the call passes `1e-6, 1e-6, 0.0`), so its error control is
purely absolute, contradicting the claim that the configured error control is
neither purely relative nor purely absolute. -/
theorem driver_config_pure_absolute_tolerance :
    driver_config.epsrel = 0 ∧ driver_config.epsabs = 1 / 1000000 :=
  ⟨rfl, rfl⟩

/-- C4 amended: the driver is constructed at startup with the implicit
Runge-Kutta 1 method (which supports implicit time-stepping for stiff
regimes), initial step size `1e-6`, absolute tolerance `1e-6`, and relative
tolerance `0` — a purely absolute error control. -/
theorem driver_config_values :
    driver_config.method = gsl_odeiv2_step_type.rk1imp ∧
    supports_implicit_stepping driver_config.method = true ∧
    driver_config.hstart = 1 / 1000000 ∧
    driver_config.epsabs = 1 / 1000000 ∧
    driver_config.epsrel = 0 :=
  ⟨rfl, rfl, rfl, rfl, rfl⟩

/-- C7: when the required shader file is not found at startup,
`initialize_default_shaders` prints the descriptive diagnostic of
`display_error_file_access` and exits the process with code `1` (non-zero)
before the animation loop has run a single iteration, and performs none of the
resource loads of its success path. -/
theorem missing_shader_exits_before_loop (shouldClose : ℕ → Bool) (status : ℕ → Int)
    (fuel : ℕ) :
    initialize_default_shaders false =
      StartupOutcome.exitProcess 1 display_error_file_access ∧
    display_error_file_access ≠ [] ∧
    main_run false shouldClose status fuel = (some (0, 1), display_error_file_access) ∧
    (1 : Int) ≠ 0 := by
  refine ⟨rfl, ?_, rfl, by decide⟩
  simp [display_error_file_access]

theorem norm_z_axis (a : ℝ) : vec3.norm ⟨0, 0, a⟩ = |a| := by
  simp only [vec3.norm]
  rw [show (0 : ℝ) * 0 + 0 * 0 + a * a = a ^ 2 by ring]
  exact Real.sqrt_sq_eq_abs a

/-- C5 counterexample: at state `y = (1/2, 1)` with the tracked object
currently at `(0, 0, 4)`, the loop computes the displacement `(0, 0, -1)`
(unit vector from the anchor `(0, 0, 3)` toward `(0, 0, y[0]) = (0, 0, 1/2)`,
scaled by `y[1] = 1`), whereas the unit vector from the anchor toward the
object position `(0, 0, 4)` scaled by `y[1]` is `(0, 0, 1)`: the claim
misidentifies the point the direction aims at. -/
theorem displacement_not_toward_object_position :
    p2_displacement ![1/2, 1] ≠ spec_displacement ⟨0, 0, 4⟩ ![1/2, 1] := by
  have hcode : p2_displacement ![1/2, 1] = ⟨0, 0, -1⟩ := by
    simp only [p2_displacement, Matrix.cons_val_zero, Matrix.cons_val_one, Matrix.head_cons]
    have hsub : vec3.sub ⟨0, 0, (1 : ℝ)/2⟩ ⟨0, 0, 3⟩ = ⟨0, 0, -(5/2)⟩ := by
      simp [vec3.sub]
      norm_num
    rw [hsub, norm_z_axis]
    rw [show |(-(5/2) : ℝ)| = 5/2 by rw [abs_neg]; exact abs_of_pos (by norm_num)]
    simp [vec3.divScalar, vec3.smul]
  have hspec : spec_displacement ⟨0, 0, 4⟩ ![1/2, 1] = ⟨0, 0, 1⟩ := by
    simp only [spec_displacement, Matrix.cons_val_one, Matrix.head_cons]
    have hsub : vec3.sub ⟨0, 0, (4 : ℝ)⟩ ⟨0, 0, 3⟩ = ⟨0, 0, 1⟩ := by
      simp [vec3.sub]
      norm_num
    rw [hsub, norm_z_axis]
    rw [show |(1 : ℝ)| = 1 by norm_num]
    simp [vec3.divScalar, vec3.smul]
  rw [hcode, hspec]
  intro h
  have := congrArg vec3.z h
  norm_num at this

/-- C5 amended: the per-iteration displacement is the unit vector from the
fixed anchor `(0, 0, 3)` toward the point `(0, 0, y[0])` given by the position
component of the integrator state (not toward the object current position),
scaled by the velocity component `y[1]`; in particular whenever `y[0] < 3`
this displacement is `(0, 0, -y[1])`. -/
theorem p2_displacement_closed_form (y : Fin 2 → ℝ) (h : y 0 < 3) :
    p2_displacement y = ⟨0, 0, -(y 1)⟩ := by
  have hsub : vec3.sub ⟨0, 0, y 0⟩ ⟨0, 0, 3⟩ = ⟨0, 0, y 0 - 3⟩ := by
    simp [vec3.sub]
  have hne : y 0 - 3 < 0 := by linarith
  have hnorm : vec3.norm ⟨0, 0, y 0 - 3⟩ = 3 - y 0 := by
    rw [norm_z_axis, abs_of_neg hne]
    ring
  simp only [p2_displacement]
  rw [hsub, hnorm]
  simp only [vec3.divScalar, vec3.smul]
  have h3 : (3 : ℝ) - y 0 ≠ 0 := by linarith
  have hz : (y 0 - 3) / (3 - y 0) * y 1 = -(y 1) := by
    field_simp
    ring
  simp [hz]

/-- Witness for C5 amended at `y = (1/2, 1)`: the position component `1/2` is
below the anchor height `3` and the applied displacement is `(0, 0, -1)`. -/
theorem p2_displacement_closed_form_witness :
    (![1/2, 1] : Fin 2 → ℝ) 0 < 3 ∧ p2_displacement ![1/2, 1] = ⟨0, 0, -1⟩ := by
  have h0 : (![1/2, 1] : Fin 2 → ℝ) 0 < 3 := by
    simp only [Matrix.cons_val_zero]
    norm_num
  refine ⟨h0, ?_⟩
  have := p2_displacement_closed_form ![1/2, 1] h0
  simpa using this

/-- C9: the tracked-object translation is cumulative: after `n` loop
iterations it equals its initial value plus the componentwise sum of the `n`
per-iteration displacement vectors, so it depends on the whole history of
returned states and not only on the current one. -/
theorem p2_translation_is_cumulative (t0 : vec3) (ys : ℕ → Fin 2 → ℝ) (n : ℕ) :
    p2_translation t0 ys n =
      ⟨t0.x + ∑ i in Finset.range n, (p2_displacement (ys i)).x,
       t0.y + ∑ i in Finset.range n, (p2_displacement (ys i)).y,
       t0.z + ∑ i in Finset.range n, (p2_displacement (ys i)).z⟩ := by
  induction n with
  | zero => simp [p2_translation]
  | succ n ih =>
    simp only [p2_translation, ih, vec3.add, Finset.sum_range_succ, vec3.mk.injEq]
    refine ⟨by ring, by ring, by ring⟩

theorem update_from_glfw_key_f_shift (action : Int) (kb : keyboard_state) :
    (update_from_glfw_key GLFW_KEY_F action kb).shift = kb.shift := by
  simp [update_from_glfw_key, GLFW_KEY_F, GLFW_KEY_LEFT_SHIFT, GLFW_KEY_RIGHT_SHIFT]

theorem keyboard_callback_f_press_flag (keyboard_event : SceneState → SceneState)
    (hpre : ∀ u : SceneState,
      (keyboard_event u).inputs.keyboard.shift = u.inputs.keyboard.shift ∧
      (keyboard_event u).window.is_full_screen = u.window.is_full_screen)
    (s : SceneState) (hshift : s.inputs.keyboard.shift = true) :
    (keyboard_callback keyboard_event GLFW_KEY_F GLFW_PRESS s).1.window.is_full_screen
      = !s.window.is_full_screen := by
  simp only [keyboard_callback]
  have hcond : (keyboard_event
      { s with inputs.keyboard := update_from_glfw_key GLFW_KEY_F GLFW_PRESS s.inputs.keyboard
        }).inputs.keyboard.shift = true := by
    rw [(hpre _).1]
    simpa [update_from_glfw_key_f_shift] using hshift
  rw [if_pos ⟨trivial, trivial, hcond⟩]
  rw [(hpre _).2]

theorem keyboard_callback_f_release_flag (keyboard_event : SceneState → SceneState)
    (hpre : ∀ u : SceneState,
      (keyboard_event u).inputs.keyboard.shift = u.inputs.keyboard.shift ∧
      (keyboard_event u).window.is_full_screen = u.window.is_full_screen)
    (s : SceneState) :
    (keyboard_callback keyboard_event GLFW_KEY_F GLFW_RELEASE s).1.window.is_full_screen
      = s.window.is_full_screen := by
  simp only [keyboard_callback]
  rw [if_neg]
  · exact (hpre _).2
  · intro hc
    have : GLFW_RELEASE = GLFW_PRESS := hc.2.1
    simp [GLFW_RELEASE, GLFW_PRESS] at this

/-- C6: for any starting value of the fullscreen flag, delivering
key-down(F) while the shift modifier flag is held and then key-up(F) toggles
the flag exactly once — the key-down with shift flips it and the key-up leaves
it unchanged — provided the scene-level key handler (external to `src/`)
preserves the shift flag and the fullscreen flag. -/
theorem shift_f_toggles_fullscreen_once (keyboard_event : SceneState → SceneState)
    (hpre : ∀ u : SceneState,
      (keyboard_event u).inputs.keyboard.shift = u.inputs.keyboard.shift ∧
      (keyboard_event u).window.is_full_screen = u.window.is_full_screen)
    (s : SceneState) (hshift : s.inputs.keyboard.shift = true) :
    (keyboard_callback keyboard_event GLFW_KEY_F GLFW_PRESS s).1.window.is_full_screen
      = !s.window.is_full_screen ∧
    (keyboard_callback keyboard_event GLFW_KEY_F GLFW_RELEASE
        (keyboard_callback keyboard_event GLFW_KEY_F GLFW_PRESS s).1).1.window.is_full_screen
      = !s.window.is_full_screen := by
  have h1 := keyboard_callback_f_press_flag keyboard_event hpre s hshift
  refine ⟨h1, ?_⟩
  rw [keyboard_callback_f_release_flag keyboard_event hpre _, h1]

/-- Witness for C6: from the concrete scene state with the shift flag held and
the fullscreen flag down, with the identity scene handler, the key-down
toggles the flag to `true` and the following key-up keeps it `true`. -/
theorem shift_f_toggles_fullscreen_once_witness :
    sample_scene.inputs.keyboard.shift = true ∧
    (keyboard_callback id GLFW_KEY_F GLFW_PRESS sample_scene).1.window.is_full_screen
      = true ∧
    (keyboard_callback id GLFW_KEY_F GLFW_RELEASE
        (keyboard_callback id GLFW_KEY_F GLFW_PRESS sample_scene).1).1.window.is_full_screen
      = true := by
  have h := shift_f_toggles_fullscreen_once id (fun _ => ⟨rfl, rfl⟩) sample_scene rfl
  exact ⟨rfl, by simpa [sample_scene] using h.1, by simpa [sample_scene] using h.2⟩

/-- C8: in each of the three input callbacks, the shared input state is
mutated first and the scene-level handler is invoked second, so the handler
observes exactly the post-update input state (the update applied to the state
at event delivery), never a stale snapshot; for the mouse callbacks the final
scene state is the handler applied to the updated scene. -/
theorem handlers_observe_post_update_state (to_relative : ℝ × ℝ → ℝ × ℝ)
    (mouse_move_event mouse_click_event keyboard_event : SceneState → SceneState)
    (xpos ypos : ℝ) (button baction key kaction : Int) (s : SceneState) :
    (mouse_move_callback to_relative mouse_move_event xpos ypos s).2 =
      [CallbackEvent.input_state_mutated
        (mouse_move_input_update (to_relative (xpos, ypos)) s.inputs),
       CallbackEvent.scene_handler_invoked
        (mouse_move_input_update (to_relative (xpos, ypos)) s.inputs)] ∧
    (mouse_click_callback mouse_click_event button baction s).2 =
      [CallbackEvent.input_state_mutated (mouse_click_input_update button baction s.inputs),
       CallbackEvent.scene_handler_invoked (mouse_click_input_update button baction s.inputs)] ∧
    (keyboard_callback keyboard_event key kaction s).2 =
      [CallbackEvent.input_state_mutated (keyboard_input_update key kaction s.inputs),
       CallbackEvent.scene_handler_invoked (keyboard_input_update key kaction s.inputs)] ∧
    (mouse_move_callback to_relative mouse_move_event xpos ypos s).1 =
      mouse_move_event
        { s with inputs := mouse_move_input_update (to_relative (xpos, ypos)) s.inputs } ∧
    (mouse_click_callback mouse_click_event button baction s).1 =
      mouse_click_event { s with inputs := mouse_click_input_update button baction s.inputs } :=
  ⟨rfl, rfl, rfl, rfl, rfl⟩

end Softbody
